import Mathlib

/-!
Verification of the command-orchestration core of the sonz.AI repository:
a shallow embedding of the Go domain aggregates (Tournament, Participant,
Battle, PlayerAccount, BotCommand, analytics Session, Group) and of the
application services (tournament, bot command, analytics), together with
theorems settling the frozen behavioural claims.

Go `time.Time` values are embedded as integers (an abstract absolute
timestamp; `IsZero` becomes equality with 0, `Before` becomes `<`).
Go `error` values are embedded as the inductive `GoErr`; a fallible Go
method that mutates its pointer receiver becomes a Lean function returning
the error option together with the (possibly unchanged) receiver.
Methods that call `time.Now()` internally receive that hidden clock read
as an explicit extra `wallNow` argument, so that dependence on the wall
clock is visible in the embedding.
Repository / provider / queue collaborators are embedded as environments
recording the outcome each external call would return, and every service
call additionally returns the ordered trace of external calls it made.
-/

namespace Sonz

/-- Absolute timestamps; Go `time.Time` with `IsZero` = `(· = 0)`. -/
abbrev GoTime := Int

/-- Go durations (integer, provider rendering divides to seconds). -/
abbrev GoDuration := Int

/-- Embedded Go error values.  Errors created with `errors.New` at package
scope get their own constructor; inline `errors.New` calls are `msg`. -/
inductive GoErr where
  | msg (s : String)
  | emailRequired
  | accountSuspended
  | deviceInvalid
  | tournamentNotFound
  | tournamentAlreadyExists
  | tournamentAlreadyEnded
  | participantNotFound
  | participantAlreadyJoined
  | tournamentFull
  | invalidAttemptCount
  | playerAlreadyJoined
  | playerNotFoundInBattle
  | duplicate
  | notFound
  | conflict
  | invalidState
  | sessionNotFound
  | sessionAlreadyEnded
  | invalidEvent
  | dispatchFailed
  | nameRequired
  | memberNotFound
  deriving DecidableEq, Repr

/-- The string carried by an embedded error (`err.Error()` in Go). -/
def GoErr.message : GoErr → String
  | .msg s => s
  | .emailRequired => "player email is required"
  | .accountSuspended => "player account suspended"
  | .deviceInvalid => "device fingerprint invalid"
  | .tournamentNotFound => "tournament not found"
  | .tournamentAlreadyExists => "tournament already exists"
  | .tournamentAlreadyEnded => "tournament already ended"
  | .participantNotFound => "participant not found"
  | .participantAlreadyJoined => "participant already joined"
  | .tournamentFull => "tournament is full"
  | .invalidAttemptCount => "invalid attempt count"
  | .playerAlreadyJoined => "player already joined battle"
  | .playerNotFoundInBattle => "player not in battle"
  | .duplicate => "duplicate operation"
  | .notFound => "entity not found"
  | .conflict => "entity conflict"
  | .invalidState => "invalid state transition"
  | .sessionNotFound => "session not found"
  | .sessionAlreadyEnded => "session already ended"
  | .invalidEvent => "invalid event"
  | .dispatchFailed => "failed to dispatch events"
  | .nameRequired => "group name required"
  | .memberNotFound => "group member not found"

/-! ### Identifier types (src/domain/shared/types.go) -/

/-- Go's `strings.TrimSpace`, modelled structurally on the character
list so that the kernel can evaluate it on concrete identifiers. -/
def goTrimSpace (s : String) : String :=
  ⟨((s.data.dropWhile Char.isWhitespace).reverse.dropWhile
      Char.isWhitespace).reverse⟩

abbrev PlayerID := String
abbrev GroupID := String
abbrev BattleID := String
abbrev SeasonID := String
abbrev BotCommandID := String
abbrev IdempotencyKey := String
abbrev TournamentID := String

def PlayerID.Validate (id : PlayerID) : Option GoErr :=
  if goTrimSpace id = "" then some (.msg "player id is required") else none

def GroupID.Validate (id : GroupID) : Option GoErr :=
  if goTrimSpace id = "" then some (.msg "group id is required") else none

def BattleID.Validate (id : BattleID) : Option GoErr :=
  if goTrimSpace id = "" then some (.msg "battle id is required") else none

def BotCommandID.Validate (id : BotCommandID) : Option GoErr :=
  if goTrimSpace id = "" then some (.msg "bot command id is required") else none

def IdempotencyKey.Validate (key : IdempotencyKey) : Option GoErr :=
  if goTrimSpace key = "" then some (.msg "idempotency key is required") else none

/-- Modelled from the spec: the `TournamentID` identifier type is used by
the tournament domain and services but its declaration file is not among
the provided sources; the spec says identifier `Validate()` fails exactly
when the trimmed value is blank, like every other identifier type. -/
def TournamentID.Validate (id : TournamentID) : Option GoErr :=
  if goTrimSpace id = "" then some (.msg "tournament id is required") else none

/-! ### Tournament aggregate (domain/tournament) -/

inductive SortOrder where
  | ascending
  | descending
  deriving DecidableEq, Repr

inductive Operator where
  | best
  | set
  | increment
  | decrement
  deriving DecidableEq, Repr

inductive TournamentState where
  | active
  | ended
  | reset
  deriving DecidableEq, Repr

structure Tournament where
  ID : TournamentID
  Title : String
  Description : String
  Category : Int
  SortOrder : SortOrder
  Operator : Operator
  ResetSchedule : String
  Authoritative : Bool
  JoinRequired : Bool
  MaxSize : Int
  MaxNumScore : Int
  StartTime : GoTime
  EndTime : Option GoTime
  Duration : GoDuration
  State : TournamentState
  CreatedAt : GoTime
  UpdatedAt : GoTime
  deriving DecidableEq, Repr

/-- `tournament.NewTournament`: validates every field and returns the
fully-initialised active aggregate. -/
def NewTournament (id : TournamentID) (title description : String)
    (category : Int) (sortOrder : SortOrder) (operator : Operator)
    (resetSchedule : String) (authoritative joinRequired : Bool)
    (maxSize maxNumScore : Int) (startTime : GoTime)
    (duration : GoDuration) (now : GoTime) : Except GoErr Tournament :=
  match TournamentID.Validate id with
  | some e => .error e
  | none =>
    if title = "" then .error (.msg "title is required")
    else if category < 0 then .error (.msg "category must be non-negative")
    else if maxSize < 0 then .error (.msg "max size must be non-negative")
    else if maxNumScore < 0 then .error (.msg "max num score must be non-negative")
    else if startTime = 0 then .error (.msg "start time is required")
    else if duration < 0 then .error (.msg "duration must be non-negative")
    else .ok {
      ID := id
      Title := title
      Description := description
      Category := category
      SortOrder := sortOrder
      Operator := operator
      ResetSchedule := resetSchedule
      Authoritative := authoritative
      JoinRequired := joinRequired
      MaxSize := maxSize
      MaxNumScore := maxNumScore
      StartTime := startTime
      EndTime := none
      Duration := duration
      State := .active
      CreatedAt := now
      UpdatedAt := now }

/-- `Tournament.End`: rejects a second end and end times before start;
on success records the end time and moves to the ended state. -/
def Tournament.End (t : Tournament) (endTime : GoTime) :
    Option GoErr × Tournament :=
  if t.State = .ended then (some .tournamentAlreadyEnded, t)
  else if endTime < t.StartTime then
    (some (.msg "end time cannot be before start time"), t)
  else (none, { t with State := .ended, EndTime := some endTime,
                       UpdatedAt := endTime })

/-- `Tournament.Reset`: only active or ended tournaments can be reset. -/
def Tournament.Reset (t : Tournament) (resetTime : GoTime) :
    Option GoErr × Tournament :=
  if t.State ≠ .active ∧ t.State ≠ .ended then
    (some (.msg "can only reset active or ended tournaments"), t)
  else (none, { t with State := .reset, UpdatedAt := resetTime })

def Tournament.IsActive (t : Tournament) : Bool :=
  t.State = .active

/-- `Tournament.CalculateEndTime`. -/
def Tournament.CalculateEndTime (t : Tournament) : GoTime :=
  if 0 < t.Duration then t.StartTime + t.Duration
  else match t.EndTime with
    | some e => e
    | none => 0

/-! ### Participant (domain/tournament/participant.go) -/

structure Participant where
  TournamentID : TournamentID
  PlayerID : PlayerID
  Attempts : Int
  JoinedAt : GoTime
  UpdatedAt : GoTime
  deriving DecidableEq, Repr

/-- `tournament.NewParticipant`. -/
def NewParticipant (tournamentID : TournamentID) (playerID : PlayerID)
    (joinedAt : GoTime) : Except GoErr Participant :=
  match TournamentID.Validate tournamentID with
  | some e => .error e
  | none =>
    match PlayerID.Validate playerID with
    | some e => .error e
    | none =>
      if joinedAt = 0 then .error (.msg "joined time is required")
      else .ok {
        TournamentID := tournamentID
        PlayerID := playerID
        Attempts := 0
        JoinedAt := joinedAt
        UpdatedAt := joinedAt }

/-- `Participant.AddAttempts`: positive counts are added, the rest are
rejected without mutation. -/
def Participant.AddAttempts (p : Participant) (count : Int) (now : GoTime) :
    Option GoErr × Participant :=
  if count ≤ 0 then (some (.msg "attempt count must be positive"), p)
  else (none, { p with Attempts := p.Attempts + count, UpdatedAt := now })

/-- `Participant.ResetAttempts`. -/
def Participant.ResetAttempts (p : Participant) (now : GoTime) : Participant :=
  { p with Attempts := 0, UpdatedAt := now }

/-! ### Battle aggregate (domain/battle) -/

structure MatchState where
  Tick : Int
  Payload : List Nat
  UpdatedAt : GoTime
  deriving DecidableEq, Repr

structure PlayerSlot where
  PlayerID : PlayerID
  JoinedAt : GoTime
  Ready : Bool
  deriving DecidableEq, Repr

structure Battle where
  ID : BattleID
  Leader : PlayerID
  Slots : List PlayerSlot
  StateSnapshot : MatchState
  CreatedAt : GoTime
  UpdatedAt : GoTime
  IdempotencyKey : IdempotencyKey
  deriving DecidableEq, Repr

/-- `battle.NewBattle`: the leader is seeded as the first, ready slot. -/
def NewBattle (id : BattleID) (leader : PlayerID) (key : IdempotencyKey)
    (now : GoTime) : Except GoErr Battle :=
  match BattleID.Validate id with
  | some e => .error e
  | none =>
    match PlayerID.Validate leader with
    | some e => .error e
    | none =>
      match IdempotencyKey.Validate key with
      | some e => .error e
      | none => .ok {
          ID := id
          Leader := leader
          Slots := [{ PlayerID := leader, JoinedAt := now, Ready := true }]
          StateSnapshot := { Tick := 0, Payload := [], UpdatedAt := 0 }
          CreatedAt := now
          UpdatedAt := now
          IdempotencyKey := key }

/-- `Battle.AddPlayer`: rejects a player already holding a slot. -/
def Battle.AddPlayer (b : Battle) (player : PlayerID) (now : GoTime) :
    Option GoErr × Battle :=
  if b.Slots.any (fun slot => slot.PlayerID = player) then
    (some .playerAlreadyJoined, b)
  else (none, { b with
    Slots := b.Slots ++ [{ PlayerID := player, JoinedAt := now, Ready := false }]
    UpdatedAt := now })

/-- Helper for `Battle.MarkReady`: update the first slot of the given
player, mirroring the Go loop over `b.Slots`. -/
def markReadySlots (slots : List PlayerSlot) (player : PlayerID)
    (ready : Bool) : Option (List PlayerSlot) :=
  match slots with
  | [] => none
  | slot :: rest =>
    if slot.PlayerID = player then
      some ({ slot with Ready := ready } :: rest)
    else
      match markReadySlots rest player ready with
      | some rest' => some (slot :: rest')
      | none => none

/-- `Battle.MarkReady`: flips the ready flag of an existing slot, or fails
with the player-not-found error. -/
def Battle.MarkReady (b : Battle) (player : PlayerID) (ready : Bool)
    (now : GoTime) : Option GoErr × Battle :=
  match markReadySlots b.Slots player ready with
  | some slots' => (none, { b with Slots := slots', UpdatedAt := now })
  | none => (some .playerNotFoundInBattle, b)

/-- `Battle.UpdateSnapshot`: the Go method calls `time.Now().UTC()` when
the snapshot carries a zero timestamp; that hidden read is the explicit
`wallNow` argument here. -/
def Battle.UpdateSnapshot (b : Battle) (state : MatchState)
    (wallNow : GoTime) : Battle :=
  let st := if state.UpdatedAt = 0 then { state with UpdatedAt := wallNow }
            else state
  { b with StateSnapshot := st, UpdatedAt := st.UpdatedAt }

/-! ### PlayerAccount aggregate (domain/player) -/

structure DeviceFingerprint where
  ID : String
  Platform : String
  LastSeen : GoTime
  deriving DecidableEq, Repr

structure SessionMetadata where
  SessionID : String
  IpAddress : String
  UserAgent : String
  IssuedAt : GoTime
  deriving DecidableEq, Repr

/-- Go's `map[string]DeviceFingerprint` embedded as an association list;
`mapInsert` is the `m[k] = v` update (replace in place, else append). -/
def mapInsert (k : String) (v : DeviceFingerprint)
    (m : List (String × DeviceFingerprint)) :
    List (String × DeviceFingerprint) :=
  match m with
  | [] => [(k, v)]
  | (k', v') :: rest =>
    if k' = k then (k, v) :: rest else (k', v') :: mapInsert k v rest

structure PlayerAccount where
  ID : PlayerID
  Email : String
  DisplayName : String
  Devices : List (String × DeviceFingerprint)
  Sessions : List SessionMetadata
  CreatedAt : GoTime
  UpdatedAt : GoTime
  Suspended : Bool
  SuspensionMsg : String
  deriving DecidableEq, Repr

/-- `player.NewPlayerAccount`: requires a valid id and a non-empty email;
starts with an empty device map, no sessions, not suspended. -/
def NewPlayerAccount (id : PlayerID) (email displayName : String)
    (now : GoTime) : Except GoErr PlayerAccount :=
  match PlayerID.Validate id with
  | some e => .error e
  | none =>
    if email = "" then .error .emailRequired
    else .ok {
      ID := id
      Email := email
      DisplayName := displayName
      Devices := []
      Sessions := []
      CreatedAt := now
      UpdatedAt := now
      Suspended := false
      SuspensionMsg := "" }

/-- `PlayerAccount.RegisterDevice`: the Go method calls `time.Now().UTC()`
both to default a zero `LastSeen` and for `UpdatedAt`; that hidden read is
the explicit `wallNow` argument here. -/
def PlayerAccount.RegisterDevice (p : PlayerAccount)
    (device : DeviceFingerprint) (wallNow : GoTime) :
    Option GoErr × PlayerAccount :=
  if p.Suspended then (some .accountSuspended, p)
  else if device.ID = "" then (some .deviceInvalid, p)
  else
    let d := if device.LastSeen = 0 then { device with LastSeen := wallNow }
             else device
    (none, { p with Devices := mapInsert d.ID d p.Devices,
                    UpdatedAt := wallNow })

/-- `PlayerAccount.RecordSession`: no error return in Go; a blank session
id is silently ignored.  `time.Now().UTC()` defaults a zero `IssuedAt` and
stamps `UpdatedAt`; that hidden read is the explicit `wallNow` argument. -/
def PlayerAccount.RecordSession (p : PlayerAccount)
    (session : SessionMetadata) (wallNow : GoTime) : PlayerAccount :=
  if session.SessionID = "" then p
  else
    let s := if session.IssuedAt = 0 then { session with IssuedAt := wallNow }
             else session
    { p with Sessions := p.Sessions ++ [s], UpdatedAt := wallNow }

/-- `PlayerAccount.Suspend`: unconditional; `UpdatedAt` comes from the
hidden `time.Now().UTC()` read, the explicit `wallNow` argument here. -/
def PlayerAccount.Suspend (p : PlayerAccount) (message : String)
    (wallNow : GoTime) : PlayerAccount :=
  { p with Suspended := true, SuspensionMsg := message, UpdatedAt := wallNow }

/-- `PlayerAccount.Reinstate`. -/
def PlayerAccount.Reinstate (p : PlayerAccount) (wallNow : GoTime) :
    PlayerAccount :=
  { p with Suspended := false, SuspensionMsg := "", UpdatedAt := wallNow }

/-- `PlayerAccount.CanStartBattle`. -/
def PlayerAccount.CanStartBattle (p : PlayerAccount)
    (key : IdempotencyKey) : Option GoErr :=
  if p.Suspended then some .accountSuspended
  else IdempotencyKey.Validate key

/-- The non-timestamp content of a `PlayerAccount`: everything except the
`CreatedAt`/`UpdatedAt` stamps and the per-device / per-session times. -/
def PlayerAccount.core (p : PlayerAccount) :
    PlayerID × String × String × List (String × String × String) ×
    List (String × String × String) × Bool × String :=
  (p.ID, p.Email, p.DisplayName,
   p.Devices.map (fun kv => (kv.1, kv.2.ID, kv.2.Platform)),
   p.Sessions.map (fun s => (s.SessionID, s.IpAddress, s.UserAgent)),
   p.Suspended, p.SuspensionMsg)

/-- The non-timestamp content of a `Battle`. -/
def Battle.core (b : Battle) :
    BattleID × PlayerID × List (PlayerID × Bool) × Int × List Nat ×
    String :=
  (b.ID, b.Leader, b.Slots.map (fun s => (s.PlayerID, s.Ready)),
   b.StateSnapshot.Tick, b.StateSnapshot.Payload, b.IdempotencyKey)

/-! ### Group aggregate (domain/group) -/

inductive Role where
  | owner
  | admin
  | member
  deriving DecidableEq, Repr

structure Membership where
  PlayerID : PlayerID
  Role : Role
  JoinedAt : GoTime
  deriving DecidableEq, Repr

/-- Go's `map[shared.PlayerID]Membership` embedded as an association list
with in-place replacement on update. -/
def memberInsert (k : PlayerID) (v : Membership)
    (m : List (PlayerID × Membership)) : List (PlayerID × Membership) :=
  match m with
  | [] => [(k, v)]
  | (k', v') :: rest =>
    if k' = k then (k, v) :: rest else (k', v') :: memberInsert k v rest

def memberLookup (k : PlayerID) (m : List (PlayerID × Membership)) :
    Option Membership :=
  match m with
  | [] => none
  | (k', v') :: rest => if k' = k then some v' else memberLookup k rest

structure Group where
  ID : GroupID
  Name : String
  Description : String
  Members : List (PlayerID × Membership)
  CreatedAt : GoTime
  UpdatedAt : GoTime
  deriving DecidableEq, Repr

/-- `group.NewGroup`: the creator is inserted as owner. -/
def NewGroup (id : GroupID) (name : String) (owner : PlayerID)
    (now : GoTime) : Except GoErr Group :=
  match GroupID.Validate id with
  | some e => .error e
  | none =>
    match PlayerID.Validate owner with
    | some e => .error e
    | none =>
      if name = "" then .error .nameRequired
      else .ok {
        ID := id
        Name := name
        Description := ""
        Members := [(owner, { PlayerID := owner, Role := .owner,
                              JoinedAt := now })]
        CreatedAt := now
        UpdatedAt := now }

/-- `Group.AssignRole`: fails with member-not-found for unknown players,
otherwise rewrites the member's role. -/
def Group.AssignRole (g : Group) (playerID : PlayerID) (role : Role)
    (now : GoTime) : Option GoErr × Group :=
  match memberLookup playerID g.Members with
  | none => (some .memberNotFound, g)
  | some member =>
    (none, { g with
      Members := memberInsert playerID { member with Role := role } g.Members
      UpdatedAt := now })

/-! ### BotCommand aggregate (domain/bot/command.go) -/

inductive CommandState where
  | pending
  | completed
  | failed
  deriving DecidableEq, Repr

structure Command where
  ID : BotCommandID
  Channel : String
  Payload : List Nat
  IdempotencyKey : IdempotencyKey
  State : CommandState
  AttemptedAt : GoTime
  CompletedAt : GoTime
  RetryCount : Int
  LastError : String
  CreatedAt : GoTime
  deriving DecidableEq, Repr

/-- `bot.NewCommand`: validates id and idempotency key, starts pending. -/
def NewCommand (id : BotCommandID) (channel : String) (payload : List Nat)
    (key : IdempotencyKey) (now : GoTime) : Except GoErr Command :=
  match BotCommandID.Validate id with
  | some e => .error e
  | none =>
    match IdempotencyKey.Validate key with
    | some e => .error e
    | none => .ok {
        ID := id
        Channel := channel
        Payload := payload
        IdempotencyKey := key
        State := .pending
        AttemptedAt := 0
        CompletedAt := 0
        RetryCount := 0
        LastError := ""
        CreatedAt := now }

/-- `Command.MarkAttempt`: a failed attempt bumps the retry count and
records the error; a successful one completes the command. -/
def Command.MarkAttempt (c : Command) (now : GoTime) (e : Option GoErr) :
    Command :=
  match e with
  | some err => { c with AttemptedAt := now, RetryCount := c.RetryCount + 1,
                         State := .failed, LastError := err.message }
  | none => { c with AttemptedAt := now, State := .completed,
                     CompletedAt := now, LastError := "" }

/-! ### Analytics Session and Event (domain/analytics) -/

inductive SessionState where
  | active
  | ended
  deriving DecidableEq, Repr

structure Session where
  UserID : PlayerID
  State : SessionState
  Version : String
  Variant : String
  StartedAt : GoTime
  EndedAt : Option GoTime
  deriving DecidableEq, Repr

/-- `analytics.NewSession`. -/
def NewSession (userID : PlayerID) (version variant : String)
    (startedAt : GoTime) : Except GoErr Session :=
  match PlayerID.Validate userID with
  | some e => .error e
  | none =>
    if version = "" then .error (.msg "version is required")
    else if startedAt = 0 then .error (.msg "start time is required")
    else .ok {
      UserID := userID
      State := .active
      Version := version
      Variant := variant
      StartedAt := startedAt
      EndedAt := none }

/-- `Session.End`: rejects double-end and end times before start. -/
def Session.End (s : Session) (endedAt : GoTime) : Option GoErr × Session :=
  if s.State = .ended then (some (.msg "session already ended"), s)
  else if endedAt < s.StartedAt then
    (some (.msg "end time cannot be before start time"), s)
  else (none, { s with State := .ended, EndedAt := some endedAt })

def Session.IsActive (s : Session) : Bool :=
  s.State = .active

inductive EventType where
  | identify
  | track
  deriving DecidableEq, Repr

abbrev EventName := String

def EventNameStart : EventName := "start"
def EventNameEnd : EventName := "end"

structure LibraryInfo where
  Name : String
  Version : String
  deriving DecidableEq, Repr

structure AnalyticsContext where
  Direct : Bool
  Library : LibraryInfo
  deriving DecidableEq, Repr

structure AppInfo where
  Name : String
  Version : String
  deriving DecidableEq, Repr

structure OSInfo where
  Name : String
  Version : String
  deriving DecidableEq, Repr

structure Event where
  EvType : EventType
  UserID : PlayerID
  Name : EventName
  Context : AnalyticsContext
  App : Option AppInfo
  OS : Option OSInfo
  Timestamp : GoTime
  deriving DecidableEq, Repr

/-- `analytics.NewIdentifyEvent`. -/
def NewIdentifyEvent (userID : PlayerID) (ctx : AnalyticsContext)
    (timestamp : GoTime) : Except GoErr Event :=
  match PlayerID.Validate userID with
  | some e => .error e
  | none =>
    if timestamp = 0 then .error (.msg "timestamp cannot be zero")
    else .ok {
      EvType := .identify
      UserID := userID
      Name := ""
      Context := ctx
      App := none
      OS := none
      Timestamp := timestamp }

/-- `analytics.NewTrackEvent`. -/
def NewTrackEvent (userID : PlayerID) (name : EventName)
    (ctx : AnalyticsContext) (timestamp : GoTime) : Except GoErr Event :=
  match PlayerID.Validate userID with
  | some e => .error e
  | none =>
    if name = "" then .error (.msg "event name cannot be empty")
    else if timestamp = 0 then .error (.msg "timestamp cannot be zero")
    else .ok {
      EvType := .track
      UserID := userID
      Name := name
      Context := ctx
      App := none
      OS := none
      Timestamp := timestamp }

/-- `Event.WithAppInfo`. -/
def Event.WithAppInfo (e : Event) (name version : String) : Event :=
  { e with App := some { Name := name, Version := version } }

/-- `Event.WithOSInfo`. -/
def Event.WithOSInfo (e : Event) (name version : String) : Event :=
  { e with OS := some { Name := name, Version := version } }

/-! ### Bot command service (app/bot service)

The repository, queue producer and notifier collaborators are embedded as
an environment fixing the outcome of each external call, and `Handle`
additionally returns the ordered trace of external calls it performed. -/

structure CommandInput where
  CommandID : BotCommandID
  Channel : String
  PlayerID : PlayerID
  Payload : List Nat
  IdempotencyKey : IdempotencyKey
  deriving DecidableEq, Repr

structure CommandResult where
  Accepted : Bool
  deriving DecidableEq, Repr

/-- Outcome of `Repo.ReserveCommand`: either the existing command for the
key (Go `err == nil`), or an error — `GoErr.notFound` meaning the key is
now reserved for this caller. -/
inductive ReserveOutcome where
  | found (existing : Command)
  | failure (e : GoErr)
  deriving DecidableEq, Repr

structure BotEnv where
  reserve : ReserveOutcome
  saveErr : Option GoErr
  hasProducer : Bool
  enqueueErr : Option GoErr
  hasNotifier : Bool
  deriving DecidableEq, Repr

inductive BotEffect where
  | reserveCall (key : IdempotencyKey)
  | saveCall (c : Command)
  | enqueueCall (c : Command)
  | notifyCall (pid : PlayerID)
  deriving DecidableEq, Repr

/-- `bot.Service.Handle`: reserve the idempotency key, fast-path or
reject duplicates, otherwise construct, persist and enqueue the fresh
command (marking it failed and re-saving on enqueue failure), then
best-effort notify. -/
def BotService.Handle (now : GoTime) (input : CommandInput) (env : BotEnv) :
    Except GoErr CommandResult × List BotEffect :=
  let tr0 := [BotEffect.reserveCall input.IdempotencyKey]
  match env.reserve with
  | .found existing =>
    if existing.State = .completed then (.ok { Accepted := true }, tr0)
    else (.error .duplicate, tr0)
  | .failure e =>
    if e ≠ .notFound then (.error e, tr0)
    else
      match NewCommand input.CommandID input.Channel input.Payload
          input.IdempotencyKey now with
      | .error e' => (.error e', tr0)
      | .ok cmd =>
        let tr1 := tr0 ++ [BotEffect.saveCall cmd]
        match env.saveErr with
        | some e' => (.error e', tr1)
        | none =>
          if env.hasProducer then
            let tr2 := tr1 ++ [BotEffect.enqueueCall cmd]
            match env.enqueueErr with
            | some e' =>
              (.error e', tr2 ++ [BotEffect.saveCall
                (cmd.MarkAttempt now (some e'))])
            | none =>
              if env.hasNotifier ∧ input.PlayerID ≠ "" then
                (.ok { Accepted := true },
                 tr2 ++ [BotEffect.notifyCall input.PlayerID])
              else (.ok { Accepted := true }, tr2)
          else
            if env.hasNotifier ∧ input.PlayerID ≠ "" then
              (.ok { Accepted := true },
               tr1 ++ [BotEffect.notifyCall input.PlayerID])
            else (.ok { Accepted := true }, tr1)

/-! ### Tournament service (app/tournaments/service.go) -/

structure CreateTournamentCommand where
  ID : TournamentID
  Title : String
  Description : String
  Category : Int
  SortOrder : SortOrder
  Operator : Operator
  ResetSchedule : String
  Authoritative : Bool
  JoinRequired : Bool
  MaxSize : Int
  MaxNumScore : Int
  StartTime : GoTime
  EndTime : Option GoTime
  Duration : GoDuration
  deriving DecidableEq, Repr

structure CreateTournamentParams where
  ID : String
  Authoritative : Bool
  SortOrder : String
  Operator : String
  ResetSchedule : String
  Title : String
  Description : String
  Category : Int
  StartTime : Int
  EndTime : Int
  Duration : Int
  MaxSize : Int
  MaxNumScore : Int
  JoinRequired : Bool
  deriving DecidableEq, Repr

structure CreateTournamentResult where
  TournamentID : TournamentID
  deriving DecidableEq, Repr

def SortOrder.toGoString : SortOrder → String
  | .ascending => "asc"
  | .descending => "desc"

def Operator.toGoString : Operator → String
  | .best => "best"
  | .set => "set"
  | .increment => "incr"
  | .decrement => "decr"

/-- Provider-native rendering of a timestamp (`time.Time.Unix()`); the
embedding measures absolute time in whole seconds, so it is the identity. -/
def GoTime.unix (t : GoTime) : Int := t

/-- Provider-native rendering of a duration (`Duration.Seconds()` cast to
int); the embedding measures durations in whole seconds. -/
def GoDuration.seconds (d : GoDuration) : Int := d

/-- The provider parameter snapshot built by `Service.CreateTournament`. -/
def createParams (cmd : CreateTournamentCommand) : CreateTournamentParams :=
  { ID := cmd.ID
    Authoritative := cmd.Authoritative
    SortOrder := cmd.SortOrder.toGoString
    Operator := cmd.Operator.toGoString
    ResetSchedule := cmd.ResetSchedule
    Title := cmd.Title
    Description := cmd.Description
    Category := cmd.Category
    StartTime := GoTime.unix cmd.StartTime
    EndTime := match cmd.EndTime with
      | some e => GoTime.unix e
      | none => 0
    Duration := GoDuration.seconds cmd.Duration
    MaxSize := cmd.MaxSize
    MaxNumScore := cmd.MaxNumScore
    JoinRequired := cmd.JoinRequired }

structure TournamentEnv where
  saveErr : Option GoErr
  providerCreateErr : Option GoErr
  deriving DecidableEq, Repr

inductive TournamentEffect where
  | repoSave (t : Tournament)
  | providerCreate (p : CreateTournamentParams)
  | providerDelete (id : TournamentID)
  | repoDelete (id : TournamentID)
  deriving DecidableEq, Repr

/-- `tournaments.Service.CreateTournament`: build the aggregate, save it
locally, then create it with the external provider — in that order. -/
def TournamentService.CreateTournament (now : GoTime)
    (cmd : CreateTournamentCommand) (env : TournamentEnv) :
    Except GoErr CreateTournamentResult × List TournamentEffect :=
  match NewTournament cmd.ID cmd.Title cmd.Description cmd.Category
      cmd.SortOrder cmd.Operator cmd.ResetSchedule cmd.Authoritative
      cmd.JoinRequired cmd.MaxSize cmd.MaxNumScore cmd.StartTime
      cmd.Duration now with
  | .error e => (.error e, [])
  | .ok t =>
    match env.saveErr with
    | some e => (.error e, [TournamentEffect.repoSave t])
    | none =>
      match env.providerCreateErr with
      | some e => (.error e, [TournamentEffect.repoSave t,
                              TournamentEffect.providerCreate (createParams cmd)])
      | none => (.ok { TournamentID := t.ID },
                 [TournamentEffect.repoSave t,
                  TournamentEffect.providerCreate (createParams cmd)])

structure DeleteTournamentCommand where
  TournamentID : TournamentID
  deriving DecidableEq, Repr

structure DeleteEnv where
  providerDeleteErr : Option GoErr
  repoDeleteErr : Option GoErr
  deriving DecidableEq, Repr

/-- `tournaments.Service.DeleteTournament`: provider delete first, then
the local repository delete. -/
def TournamentService.DeleteTournament (cmd : DeleteTournamentCommand)
    (env : DeleteEnv) : Option GoErr × List TournamentEffect :=
  match TournamentID.Validate cmd.TournamentID with
  | some e => (some e, [])
  | none =>
    match env.providerDeleteErr with
    | some e => (some e, [TournamentEffect.providerDelete cmd.TournamentID])
    | none =>
      match env.repoDeleteErr with
      | some e => (some e, [TournamentEffect.providerDelete cmd.TournamentID,
                            TournamentEffect.repoDelete cmd.TournamentID])
      | none => (none, [TournamentEffect.providerDelete cmd.TournamentID,
                        TournamentEffect.repoDelete cmd.TournamentID])

/-! ### Analytics service (app/analytics service) -/

structure EndSessionCommand where
  UserID : PlayerID
  deriving DecidableEq, Repr

deriving instance DecidableEq for Except

structure AnalyticsEnv where
  ctx : AnalyticsContext
  getResult : Except GoErr Session
  saveErr : Option GoErr
  dispatchErr : Option GoErr
  deleteErr : Option GoErr
  deriving DecidableEq, Repr

inductive AnalyticsEffect where
  | getCall (uid : PlayerID)
  | saveCall (s : Session)
  | dispatchCall (events : List Event)
  | deleteCall (uid : PlayerID)
  deriving DecidableEq, Repr

/-- `analytics.Service.EndSession`: fetch the session, apply `End(now)`,
persist the mutated session, dispatch the end event (any dispatch error
maps to `dispatchFailed` and returns before the delete), then delete the
session record ignoring the delete error. -/
def AnalyticsService.EndSession (now : GoTime) (cmd : EndSessionCommand)
    (env : AnalyticsEnv) : Option GoErr × List AnalyticsEffect :=
  match PlayerID.Validate cmd.UserID with
  | some e => (some e, [])
  | none =>
    let tr0 := [AnalyticsEffect.getCall cmd.UserID]
    match env.getResult with
    | .error e => (some e, tr0)
    | .ok session =>
      match session.End now with
      | (some e, _) => (some e, tr0)
      | (none, session') =>
        let tr1 := tr0 ++ [AnalyticsEffect.saveCall session']
        match env.saveErr with
        | some e => (some e, tr1)
        | none =>
          match NewTrackEvent cmd.UserID EventNameEnd env.ctx now with
          | .error e => (some e, tr1)
          | .ok ev =>
            let tr2 := tr1 ++ [AnalyticsEffect.dispatchCall [ev]]
            match env.dispatchErr with
            | some _ => (some .dispatchFailed, tr2)
            | none => (none, tr2 ++ [AnalyticsEffect.deleteCall cmd.UserID])

/-! ### Concrete fixtures used by witnesses and counterexamples -/

def tDemo : Tournament :=
  { ID := "t1", Title := "Cup", Description := "", Category := 1,
    SortOrder := .descending, Operator := .best, ResetSchedule := "",
    Authoritative := true, JoinRequired := false, MaxSize := 10,
    MaxNumScore := 10, StartTime := 100, EndTime := none, Duration := 50,
    State := .active, CreatedAt := 90, UpdatedAt := 90 }

def pDemo : Participant :=
  { TournamentID := "t1", PlayerID := "p1", Attempts := 0,
    JoinedAt := 1, UpdatedAt := 1 }

def acctSuspended : PlayerAccount :=
  { ID := "p1", Email := "p@x", DisplayName := "", Devices := [],
    Sessions := [], CreatedAt := 1, UpdatedAt := 1, Suspended := true,
    SuspensionMsg := "abuse" }

def acctActive : PlayerAccount :=
  { ID := "p1", Email := "p@x", DisplayName := "", Devices := [],
    Sessions := [], CreatedAt := 1, UpdatedAt := 1, Suspended := false,
    SuspensionMsg := "" }

def devDemo : DeviceFingerprint :=
  { ID := "d1", Platform := "ios", LastSeen := 0 }

def sessMetaDemo : SessionMetadata :=
  { SessionID := "s1", IpAddress := "1.2.3.4", UserAgent := "ua",
    IssuedAt := 3 }

/-! ### Claim theorems -/

/-- Claim C7: `Participant.AddAttempts(n, now)` with `n ≤ 0` returns an
error and leaves the `Attempts` counter unchanged; with `n > 0` it
returns nil and increases `Attempts` by exactly `n`. -/
theorem addAttempts_spec (p : Participant) (n : Int) (now : GoTime) :
    (n ≤ 0 → (p.AddAttempts n now).1.isSome ∧ (p.AddAttempts n now).2 = p)
    ∧ (0 < n → (p.AddAttempts n now).1 = none
        ∧ (p.AddAttempts n now).2.Attempts = p.Attempts + n) := by
  constructor
  · intro h
    simp [Participant.AddAttempts, h]
  · intro h
    have h' : ¬ n ≤ 0 := not_le.mpr h
    simp [Participant.AddAttempts, h']

/-- Witness for the claim C7 theorem at `n = 5` (and the rejection side at
`n = 0`) on a concrete participant. -/
theorem addAttempts_spec_witness :
    ((pDemo.AddAttempts 5 2).1 = none
      ∧ (pDemo.AddAttempts 5 2).2.Attempts = pDemo.Attempts + 5)
    ∧ ((pDemo.AddAttempts 0 2).1.isSome ∧ (pDemo.AddAttempts 0 2).2 = pDemo) :=
  ⟨(addAttempts_spec pDemo 5 2).2 (by decide),
   (addAttempts_spec pDemo 0 2).1 (by decide)⟩

/-- Claim C6: after a successful `Tournament.End t1`, a second `End t2`
returns `AlreadyEnded`, leaves the aggregate unchanged, and `EndTime`
still holds `t1`. -/
theorem tournament_end_twice (t : Tournament) (t1 t2 : GoTime)
    (h : (t.End t1).1 = none) :
    ((t.End t1).2.End t2).1 = some .tournamentAlreadyEnded
    ∧ ((t.End t1).2.End t2).2 = (t.End t1).2
    ∧ (t.End t1).2.EndTime = some t1 := by
  by_cases h1 : t.State = .ended
  · simp [Tournament.End, h1] at h
  · by_cases h2 : t1 < t.StartTime
    · simp [Tournament.End, h1, h2] at h
    · simp [Tournament.End, h1, h2]

/-- Witness for the claim C6 theorem on a concrete active tournament. -/
theorem tournament_end_twice_witness :
    ((tDemo.End 150).2.End 160).1 = some .tournamentAlreadyEnded
    ∧ ((tDemo.End 150).2.End 160).2 = (tDemo.End 150).2
    ∧ (tDemo.End 150).2.EndTime = some 150 :=
  tournament_end_twice tDemo 150 160 (by decide)

/-- Claim C10: `NewPlayerAccount` returns `EmailRequired` exactly when the
email is empty (given a valid id), and on success starts with an empty
device map, no sessions and `Suspended = false`; a blank display name is
accepted (the display-name argument is unconstrained, and the witness
instantiates it with the empty string). -/
theorem newPlayerAccount_spec (id email displayName : String) (now : GoTime)
    (hid : goTrimSpace id ≠ "") :
    (email = "" → NewPlayerAccount id email displayName now
        = .error .emailRequired)
    ∧ (email ≠ "" → NewPlayerAccount id email displayName now
        = .ok { ID := id, Email := email, DisplayName := displayName,
                Devices := [], Sessions := [], CreatedAt := now,
                UpdatedAt := now, Suspended := false, SuspensionMsg := "" }) := by
  constructor
  · intro h
    simp [NewPlayerAccount, PlayerID.Validate, hid, h]
  · intro h
    simp [NewPlayerAccount, PlayerID.Validate, hid, h]

/-- Witness for the claim C10 theorem: blank email (with blank display
name) is rejected with `emailRequired`; a non-empty email succeeds in the
documented initial state. -/
theorem newPlayerAccount_spec_witness :
    NewPlayerAccount "p1" "" "" 5 = .error .emailRequired
    ∧ NewPlayerAccount "p1" "p@x" "" 5
        = .ok { ID := "p1", Email := "p@x", DisplayName := "",
                Devices := [], Sessions := [], CreatedAt := 5,
                UpdatedAt := 5, Suspended := false, SuspensionMsg := "" } :=
  ⟨(newPlayerAccount_spec "p1" "" "" 5 (by decide)).1 rfl,
   (newPlayerAccount_spec "p1" "p@x" "" 5 (by decide)).2 (by decide)⟩

/-- Claim C5 counterexample: `RecordSession` on a suspended account does
not fail with `AccountSuspended` and does not leave the account
unchanged — it has no suspension check at all and appends the session. -/
theorem recordSession_suspended_counterexample :
    acctSuspended.Suspended = true
    ∧ PlayerAccount.RecordSession acctSuspended sessMetaDemo 7 ≠ acctSuspended := by
  refine ⟨rfl, ?_⟩
  decide

/-- Claim C5 (amended): while suspended, `RegisterDevice` fails with
`AccountSuspended` leaving the account unchanged and `CanStartBattle`
fails with `AccountSuspended`; `RecordSession`, however, performs no
suspension check and appends any session with a non-blank id. -/
theorem suspended_account_gates (a : PlayerAccount) (d : DeviceFingerprint)
    (k : IdempotencyKey) (s : SessionMetadata) (w : GoTime)
    (h : a.Suspended = true) :
    a.RegisterDevice d w = (some .accountSuspended, a)
    ∧ a.CanStartBattle k = some .accountSuspended
    ∧ (s.SessionID ≠ "" →
        (a.RecordSession s w).Sessions.length = a.Sessions.length + 1) := by
  refine ⟨?_, ?_, ?_⟩
  · simp [PlayerAccount.RegisterDevice, h]
  · simp [PlayerAccount.CanStartBattle, h]
  · intro hs
    simp [PlayerAccount.RecordSession, hs]

/-- Witness for the amended claim C5 theorem on a concrete suspended
account. -/
theorem suspended_account_gates_witness :
    acctSuspended.RegisterDevice devDemo 7 = (some .accountSuspended, acctSuspended)
    ∧ acctSuspended.CanStartBattle "k1" = some .accountSuspended
    ∧ ((sessMetaDemo : SessionMetadata).SessionID ≠ "" →
        (acctSuspended.RecordSession sessMetaDemo 7).Sessions.length
          = acctSuspended.Sessions.length + 1) :=
  suspended_account_gates acctSuspended devDemo "k1" sessMetaDemo 7 rfl

/-- Claim C4 counterexample: `PlayerAccount.RegisterDevice` is not a
function of the receiver and its explicit arguments alone — the Go method
reads `time.Now()` internally (embedded as the final wall-clock
argument), and two calls with equal receiver and equal device but
different wall-clock instants produce different accounts. -/
theorem registerDevice_wallclock_counterexample :
    PlayerAccount.RegisterDevice acctActive devDemo 1
      ≠ PlayerAccount.RegisterDevice acctActive devDemo 2 := by
  decide

/-- Helper: mapping away the `LastSeen` timestamps, a device-map insert
does not depend on the inserted fingerprint's timestamp. -/
theorem mapInsert_core (k : String) (v1 v2 : DeviceFingerprint)
    (hid : v1.ID = v2.ID) (hp : v1.Platform = v2.Platform) :
    ∀ m : List (String × DeviceFingerprint),
      (mapInsert k v1 m).map (fun kv => (kv.1, kv.2.ID, kv.2.Platform))
      = (mapInsert k v2 m).map (fun kv => (kv.1, kv.2.ID, kv.2.Platform))
  | [] => by simp [mapInsert, hid, hp]
  | (k', v') :: rest => by
    by_cases h : k' = k
    · simp [mapInsert, h, hid, hp]
    · simp [mapInsert, h, mapInsert_core k v1 v2 hid hp rest]

/-- Claim C4 (amended): `End`, `Reset`, `AddAttempts`, `AddPlayer`,
`MarkReady` and `AssignRole` take an explicit `now` and are embedded
without any wall-clock input, so they are functions of receiver and
arguments alone; `RegisterDevice`, `RecordSession`, `Suspend` and
`UpdateSnapshot` do read the wall clock internally, but only timestamp
fields depend on it — their error outcome and all non-timestamp state
(`core`) are functions of receiver and explicit arguments alone. -/
theorem clock_mutators_core (a : PlayerAccount) (d : DeviceFingerprint)
    (s : SessionMetadata) (m : String) (b : Battle) (st : MatchState)
    (w1 w2 : GoTime) :
    (a.RegisterDevice d w1).1 = (a.RegisterDevice d w2).1
    ∧ ((a.RegisterDevice d w1).2).core = ((a.RegisterDevice d w2).2).core
    ∧ (a.RecordSession s w1).core = (a.RecordSession s w2).core
    ∧ (a.Suspend m w1).core = (a.Suspend m w2).core
    ∧ (b.UpdateSnapshot st w1).core = (b.UpdateSnapshot st w2).core := by
  refine ⟨?_, ?_, ?_, ?_, ?_⟩
  · by_cases h1 : a.Suspended <;> by_cases h2 : d.ID = "" <;>
      simp [PlayerAccount.RegisterDevice, h1, h2]
  · by_cases h1 : a.Suspended
    · simp [PlayerAccount.RegisterDevice, h1]
    · by_cases h2 : d.ID = ""
      · simp [PlayerAccount.RegisterDevice, h1, h2]
      · by_cases h3 : d.LastSeen = 0
        · simp only [PlayerAccount.RegisterDevice, PlayerAccount.core, h1, h2,
            h3, if_true, if_false, Bool.false_eq_true, if_neg, ite_true,
            ite_false]
          simp [h1, h2, h3]
          exact mapInsert_core d.ID
            { ID := d.ID, Platform := d.Platform, LastSeen := w1 }
            { ID := d.ID, Platform := d.Platform, LastSeen := w2 }
            rfl rfl a.Devices
        · simp [PlayerAccount.RegisterDevice, PlayerAccount.core, h1, h2, h3]
  · by_cases h1 : s.SessionID = ""
    · simp [PlayerAccount.RecordSession, h1]
    · by_cases h2 : s.IssuedAt = 0 <;>
        simp [PlayerAccount.RecordSession, PlayerAccount.core, h1, h2]
  · simp [PlayerAccount.Suspend, PlayerAccount.core]
  · by_cases h1 : st.UpdatedAt = 0 <;>
      simp [Battle.UpdateSnapshot, Battle.core, h1]

/-! ### Bot command service claims -/

def cmdCompleted : Command :=
  { ID := "c1", Channel := "ch", Payload := [], IdempotencyKey := "k1",
    State := .completed, AttemptedAt := 0, CompletedAt := 4,
    RetryCount := 0, LastError := "", CreatedAt := 2 }

def cmdPending : Command :=
  { ID := "c1", Channel := "ch", Payload := [], IdempotencyKey := "k1",
    State := .pending, AttemptedAt := 0, CompletedAt := 0,
    RetryCount := 0, LastError := "", CreatedAt := 2 }

def inputDemo : CommandInput :=
  { CommandID := "c1", Channel := "ch", PlayerID := "p1", Payload := [],
    IdempotencyKey := "k1" }

def botEnvFoundCompleted : BotEnv :=
  { reserve := .found cmdCompleted, saveErr := none, hasProducer := true,
    enqueueErr := none, hasNotifier := true }

def botEnvFoundPending : BotEnv :=
  { reserve := .found cmdPending, saveErr := none, hasProducer := true,
    enqueueErr := none, hasNotifier := true }

/-- Claim C1: when `ReserveCommand` returns an existing command for the
key, `Handle` returns `Accepted = true` if that command is completed and
the `Duplicate` error otherwise, and in both cases the only external call
in the trace is the reservation itself — no save, no enqueue, no command
construction side effects. -/
theorem handle_existing_command (now : GoTime) (input : CommandInput)
    (env : BotEnv) (ex : Command) (h : env.reserve = .found ex) :
    (ex.State = .completed →
      BotService.Handle now input env
        = (.ok { Accepted := true }, [.reserveCall input.IdempotencyKey]))
    ∧ (ex.State ≠ .completed →
      BotService.Handle now input env
        = (.error .duplicate, [.reserveCall input.IdempotencyKey])) := by
  constructor <;> intro hst <;> simp [BotService.Handle, h, hst]

/-- Witness for the claim C1 theorem: a completed command on the key gives
the idempotent fast path, a pending one gives `Duplicate`; either way the
trace is just the reservation. -/
theorem handle_existing_command_witness :
    BotService.Handle 9 inputDemo botEnvFoundCompleted
      = (.ok { Accepted := true }, [.reserveCall "k1"])
    ∧ BotService.Handle 9 inputDemo botEnvFoundPending
      = (.error .duplicate, [.reserveCall "k1"]) :=
  ⟨(handle_existing_command 9 inputDemo botEnvFoundCompleted cmdCompleted
      rfl).1 rfl,
   (handle_existing_command 9 inputDemo botEnvFoundPending cmdPending
      rfl).2 (by decide)⟩

def inputBlankID : CommandInput :=
  { CommandID := "", Channel := "ch", PlayerID := "p1", Payload := [],
    IdempotencyKey := "k1" }

def botEnvFresh : BotEnv :=
  { reserve := .failure .notFound, saveErr := none, hasProducer := true,
    enqueueErr := none, hasNotifier := false }

/-- Claim C3 counterexample: a structurally invalid input (blank command
id) does return a validation error, but the store is touched first — the
trace of `Handle` contains the `ReserveCommand` reservation call, so the
claim that no store operation at all happens (in particular no
`ReserveCommand`) is false on the code. -/
theorem handle_validation_counterexample :
    BotService.Handle 1 inputBlankID botEnvFresh
      = (.error (.msg "bot command id is required"), [.reserveCall "k1"]) := by
  decide

/-- Claim C3 (amended): on a structurally invalid input (blank command id
or blank idempotency key) whose key is not already reserved, `Handle`
returns the validation error with no `Save` and no enqueue — but the
`ReserveCommand` reservation call does happen first, because validation
runs inside `NewCommand`, after the idempotency lookup. -/
theorem handle_invalid_input (now : GoTime) (input : CommandInput)
    (env : BotEnv) (h1 : env.reserve = .failure .notFound)
    (h2 : goTrimSpace input.CommandID = "" ∨
          goTrimSpace input.IdempotencyKey = "") :
    (∃ e, (BotService.Handle now input env).1 = .error e)
    ∧ (BotService.Handle now input env).2
        = [.reserveCall input.IdempotencyKey] := by
  have hnc : ∃ e, NewCommand input.CommandID input.Channel input.Payload
      input.IdempotencyKey now = .error e := by
    rcases h2 with h | h
    · exact ⟨.msg "bot command id is required",
        by simp [NewCommand, BotCommandID.Validate, h]⟩
    · by_cases hid : goTrimSpace input.CommandID = ""
      · exact ⟨.msg "bot command id is required",
          by simp [NewCommand, BotCommandID.Validate, hid]⟩
      · exact ⟨.msg "idempotency key is required",
          by simp [NewCommand, BotCommandID.Validate,
            IdempotencyKey.Validate, hid, h]⟩
  obtain ⟨e, he⟩ := hnc
  refine ⟨⟨e, ?_⟩, ?_⟩
  · simp [BotService.Handle, h1, he]
  · simp [BotService.Handle, h1, he]

/-- Witness for the amended claim C3 theorem at a blank command id. -/
theorem handle_invalid_input_witness :
    (∃ e, (BotService.Handle 1 inputBlankID botEnvFresh).1 = .error e)
    ∧ (BotService.Handle 1 inputBlankID botEnvFresh).2 = [.reserveCall "k1"] :=
  handle_invalid_input 1 inputBlankID botEnvFresh rfl (Or.inl (by decide))

/-! ### Analytics service claims -/

def sessActive : Session :=
  { UserID := "u1", State := .active, Version := "1.0.0",
    Variant := "production", StartedAt := 5, EndedAt := none }

def anCtx : AnalyticsContext :=
  { Direct := true, Library := { Name := "go", Version := "go1.21" } }

def anEnvDispatchFail : AnalyticsEnv :=
  { ctx := anCtx, getResult := .ok sessActive, saveErr := none,
    dispatchErr := some (.msg "dispatch down"), deleteErr := none }

def anEnvOk : AnalyticsEnv :=
  { ctx := anCtx, getResult := .ok sessActive, saveErr := none,
    dispatchErr := none, deleteErr := none }

/-- Claim C2 counterexample: on an existing active session whose end
event fails to dispatch, `EndSession` returns `dispatchFailed` and the
session record is NOT deleted — the trace contains no delete call, so the
claimed unconditional cleanup is false on the code. -/
theorem endSession_dispatch_counterexample :
    (AnalyticsService.EndSession 10 { UserID := "u1" } anEnvDispatchFail).1
      = some .dispatchFailed
    ∧ AnalyticsEffect.deleteCall "u1"
        ∉ (AnalyticsService.EndSession 10 { UserID := "u1" } anEnvDispatchFail).2 := by
  decide

/-- Claim C2 (amended): for an existing active session that ends and
persists cleanly, the session record is deleted only when dispatching the
end event succeeds; on dispatch failure `EndSession` reports
`dispatchFailed` and returns before the delete, leaving the record in
place. -/
theorem endSession_dispatch_delete (now : GoTime) (cmd : EndSessionCommand)
    (env : AnalyticsEnv) (session : Session)
    (hu : goTrimSpace cmd.UserID ≠ "")
    (hget : env.getResult = .ok session)
    (hend : (session.End now).1 = none)
    (hnz : now ≠ 0)
    (hsave : env.saveErr = none) :
    (env.dispatchErr = none →
      (AnalyticsService.EndSession now cmd env).1 = none
      ∧ AnalyticsEffect.deleteCall cmd.UserID
          ∈ (AnalyticsService.EndSession now cmd env).2)
    ∧ (∀ e, env.dispatchErr = some e →
      (AnalyticsService.EndSession now cmd env).1 = some .dispatchFailed
      ∧ AnalyticsEffect.deleteCall cmd.UserID
          ∉ (AnalyticsService.EndSession now cmd env).2) := by
  have hval : PlayerID.Validate cmd.UserID = none := by
    simp [PlayerID.Validate, hu]
  rcases hE : session.End now with ⟨e1, s'⟩
  rw [hE] at hend
  simp only at hend
  subst hend
  have htrack : NewTrackEvent cmd.UserID EventNameEnd env.ctx now
      = .ok { EvType := .track, UserID := cmd.UserID, Name := EventNameEnd,
              Context := env.ctx, App := none, OS := none,
              Timestamp := now } := by
    simp [NewTrackEvent, hval, EventNameEnd, hnz]
  constructor
  · intro hd
    simp [AnalyticsService.EndSession, hval, hget, hE, hsave, htrack, hd]
  · intro e hd
    simp [AnalyticsService.EndSession, hval, hget, hE, hsave, htrack, hd]

/-- Witness for the amended claim C2 theorem: with a healthy dispatcher
the delete call is in the trace; with a failing dispatcher it is not. -/
theorem endSession_dispatch_delete_witness :
    ((AnalyticsService.EndSession 10 { UserID := "u1" } anEnvOk).1 = none
      ∧ AnalyticsEffect.deleteCall "u1"
          ∈ (AnalyticsService.EndSession 10 { UserID := "u1" } anEnvOk).2)
    ∧ ((AnalyticsService.EndSession 10 { UserID := "u1" } anEnvDispatchFail).1
          = some .dispatchFailed
      ∧ AnalyticsEffect.deleteCall "u1"
          ∉ (AnalyticsService.EndSession 10 { UserID := "u1" } anEnvDispatchFail).2) :=
  ⟨(endSession_dispatch_delete 10 { UserID := "u1" } anEnvOk sessActive
      (by decide) rfl (by decide) (by decide) rfl).1 rfl,
   (endSession_dispatch_delete 10 { UserID := "u1" } anEnvDispatchFail
      sessActive (by decide) rfl (by decide) (by decide) rfl).2
      (.msg "dispatch down") rfl⟩

/-! ### Tournament service claims -/

def cmdCreateDemo : CreateTournamentCommand :=
  { ID := "t1", Title := "Cup", Description := "d", Category := 1,
    SortOrder := .descending, Operator := .best, ResetSchedule := "",
    Authoritative := true, JoinRequired := false, MaxSize := 10,
    MaxNumScore := 10, StartTime := 100, EndTime := none, Duration := 50 }

def tCreated : Tournament :=
  { ID := "t1", Title := "Cup", Description := "d", Category := 1,
    SortOrder := .descending, Operator := .best, ResetSchedule := "",
    Authoritative := true, JoinRequired := false, MaxSize := 10,
    MaxNumScore := 10, StartTime := 100, EndTime := none, Duration := 50,
    State := .active, CreatedAt := 7, UpdatedAt := 7 }

def envProviderCreateFail : TournamentEnv :=
  { saveErr := none, providerCreateErr := some (.msg "nakama down") }

/-- Claim C8: `CreateTournament` saves locally before contacting the
provider; a failed save aborts with no provider call in the trace; a
failed provider call after a successful save returns the provider error
while the local save of the new aggregate is already in the trace. -/
theorem createTournament_order (now : GoTime)
    (cmd : CreateTournamentCommand) (env : TournamentEnv) (t : Tournament)
    (hok : NewTournament cmd.ID cmd.Title cmd.Description cmd.Category
      cmd.SortOrder cmd.Operator cmd.ResetSchedule cmd.Authoritative
      cmd.JoinRequired cmd.MaxSize cmd.MaxNumScore cmd.StartTime
      cmd.Duration now = .ok t) :
    (∀ e, env.saveErr = some e →
      TournamentService.CreateTournament now cmd env
        = (.error e, [.repoSave t]))
    ∧ (∀ e, env.saveErr = none → env.providerCreateErr = some e →
      TournamentService.CreateTournament now cmd env
        = (.error e, [.repoSave t, .providerCreate (createParams cmd)]))
    ∧ (env.saveErr = none → env.providerCreateErr = none →
      TournamentService.CreateTournament now cmd env
        = (.ok { TournamentID := t.ID },
           [.repoSave t, .providerCreate (createParams cmd)])) := by
  refine ⟨?_, ?_, ?_⟩ <;> intros <;>
    simp [TournamentService.CreateTournament, hok, *]

/-- Witness for the claim C8 theorem: a provider failure after a
successful save returns the provider error with the local save already
performed. -/
theorem createTournament_order_witness :
    TournamentService.CreateTournament 7 cmdCreateDemo envProviderCreateFail
      = (.error (.msg "nakama down"),
         [.repoSave tCreated, .providerCreate (createParams cmdCreateDemo)]) :=
  (createTournament_order 7 cmdCreateDemo envProviderCreateFail tCreated
    (by decide)).2.1 (.msg "nakama down") rfl rfl

def envProviderDeleteFail : DeleteEnv :=
  { providerDeleteErr := some (.msg "nakama down"), repoDeleteErr := none }

/-- Claim C9: `DeleteTournament` calls the provider delete before the
local repository delete; when the provider delete fails the call returns
that error and the trace contains no local delete, so the local record
stays intact. -/
theorem deleteTournament_order (cmd : DeleteTournamentCommand)
    (env : DeleteEnv) (h : goTrimSpace cmd.TournamentID ≠ "") :
    (∀ e, env.providerDeleteErr = some e →
      TournamentService.DeleteTournament cmd env
        = (some e, [.providerDelete cmd.TournamentID]))
    ∧ (env.providerDeleteErr = none →
      (TournamentService.DeleteTournament cmd env).2
        = [.providerDelete cmd.TournamentID,
           .repoDelete cmd.TournamentID]) := by
  have hval : TournamentID.Validate cmd.TournamentID = none := by
    simp [TournamentID.Validate, h]
  constructor
  · intro e he
    simp [TournamentService.DeleteTournament, hval, he]
  · intro he
    cases hr : env.repoDeleteErr <;>
      simp [TournamentService.DeleteTournament, hval, he, hr]

/-- Witness for the claim C9 theorem: a failing provider delete returns
the provider error with only the provider call in the trace. -/
theorem deleteTournament_order_witness :
    TournamentService.DeleteTournament { TournamentID := "t1" }
        envProviderDeleteFail
      = (some (.msg "nakama down"), [.providerDelete "t1"]) :=
  (deleteTournament_order { TournamentID := "t1" } envProviderDeleteFail
    (by decide)).1 (.msg "nakama down") rfl

end Sonz
